import Mathlib

/-!
Shallow embedding of the SaaS Todo API handler module (src/main.py).

The store is MongoDB accessed through pymongo; here a store is a list of
documents plus an optional failure message: when the failure message is
present, every store call raises an exception carrying that message
(modelling a driver-level/connectivity error).  Documents are records of
optional fields, mirroring BSON documents where any field may be absent.
Machine-level details that the handlers never observe (BSON encoding,
wire protocol) are elided; everything the handler code branches on is
kept.
-/

namespace TodoApi

/-- A stored BSON document in the `todo` collection.  Every field other
than the identifier may be absent, as in a real document store. -/
structure Doc where
  oid : String
  title : Option String
  description : Option String
  completed : Option Bool
  priority : Option String
  updated_at : Option Nat
deriving Repr, DecidableEq

/-- The store: the `todo` collection contents, plus an optional pending
driver exception message (when `some e`, any store call raises `e`). -/
structure StoreDB where
  docs : List Doc
  fail : Option String
deriving Repr, DecidableEq

/-- Pydantic model `TodoIn` after successful validation: `title` is a
required string, `description` and `priority` are `Optional[str]`,
`completed` is a `bool` defaulting to `False`. -/
structure TodoIn where
  title : String
  description : Option String
  completed : Bool
  priority : Option String
deriving Repr, DecidableEq

/-- Pydantic model `TodoOut`: `TodoIn` plus the string `id`. -/
structure TodoOut where
  id : String
  title : String
  description : Option String
  completed : Bool
  priority : Option String
deriving Repr, DecidableEq

/-- A raw request body before pydantic validation: every field may be
absent (or JSON null, which pydantic treats like absent for the
`Optional` fields and rejects for `completed`). -/
structure RawTodoIn where
  title : Option String
  description : Option String
  completed : Option Bool
  priority : Option String
deriving Repr, DecidableEq

/-- `Field(..., min_length=1, max_length=200)` on `title`. -/
def titleOk (t : String) : Bool :=
  1 ≤ t.length && t.length ≤ 200

/-- `Field(None, max_length=1000)` on `description`. -/
def descOk : Option String → Bool
  | none => true
  | some d => d.length ≤ 1000

/-- Pydantic validation of a request body against `TodoIn`:
`title` is required with length 1..200, `description` is optional with
length at most 1000, `completed` defaults to `False`, `priority` is an
unconstrained optional string. -/
def validateTodoIn (r : RawTodoIn) : Option TodoIn :=
  match r.title with
  | none => none
  | some t =>
    if titleOk t && descOk r.description then
      some { title := t, description := r.description,
             completed := r.completed.getD false, priority := r.priority }
    else none

/-- `bson.ObjectId(todo_id)` succeeds on a string exactly when it is 24
hexadecimal characters. -/
def isHexChar (c : Char) : Bool :=
  c.isDigit || (('a' ≤ c && c ≤ 'f') || ('A' ≤ c && c ≤ 'F'))

/-- Validity of a todo identifier as a store key (ObjectId hex form). -/
def isValidObjectId (s : String) : Bool :=
  s.length == 24 && s.toList.all isHexChar

/-- `serialize_todo(doc)`: builds a `TodoOut` from a stored document.
Pydantic validates on construction, so an absent or out-of-bounds
`title` (defaulted to `""` by `doc.get("title", "")`) or an oversized
`description` raises a `ValidationError`, modelled as `Except.error`. -/
def serialize_todo (doc : Doc) : Except String TodoOut :=
  let t := doc.title.getD ""
  if titleOk t && descOk doc.description then
    .ok { id := doc.oid, title := t, description := doc.description,
          completed := doc.completed.getD false, priority := doc.priority }
  else
    .error "validation error for TodoOut"

/-- The `$set` document built by `update_todo`:
`{k: v for k, v in payload.model_dump().items() if v is not None}` plus
`updated_at`.  `model_dump` emits all four fields; the filter drops only
the fields whose dumped value is `None`, so `title` (a `str`) and
`completed` (a `bool`, even `False`) are always kept. -/
structure UpdateSet where
  title : Option String
  description : Option String
  completed : Option Bool
  priority : Option String
  updated_at : Nat
deriving Repr, DecidableEq

/-- Builds the update set from a validated payload and the server
timestamp (`datetime.utcnow()`, modelled as a `Nat`). -/
def buildUpdate (p : TodoIn) (now : Nat) : UpdateSet :=
  { title := some p.title,
    description := p.description,
    completed := some p.completed,
    priority := p.priority,
    updated_at := now }

/-- MongoDB `$set` applied to one document: each present key overwrites
the corresponding field, absent keys leave the field untouched. -/
def applySet (u : UpdateSet) (d : Doc) : Doc :=
  { d with
    title := match u.title with | some t => some t | none => d.title,
    description := match u.description with | some x => some x | none => d.description,
    completed := match u.completed with | some c => some c | none => d.completed,
    priority := match u.priority with | some x => some x | none => d.priority,
    updated_at := some u.updated_at }

/-- `find_one` by identifier: the first document matching the key. -/
def findTodo (docs : List Doc) (oid : String) : Option Doc :=
  docs.find? (fun d => d.oid == oid)

/-- `find_one_and_update(filter, set, return_document=True)`: updates the
first matching document in place and returns the post-update document
(or `none` when no document matches). -/
def findOneAndUpdate : List Doc → String → UpdateSet → Option Doc × List Doc
  | [], _, _ => (none, [])
  | d :: rest, oid, u =>
    if d.oid == oid then
      (some (applySet u d), applySet u d :: rest)
    else
      let r := findOneAndUpdate rest oid u
      (r.1, d :: r.2)

/-- `delete_one` by identifier: removes the first matching document and
reports the deleted count (0 or 1). -/
def deleteOne : List Doc → String → Nat × List Doc
  | [], _ => (0, [])
  | d :: rest, oid =>
    if d.oid == oid then (1, rest)
    else
      let r := deleteOne rest oid
      (r.1, d :: r.2)

/-- A handler outcome: a successful value, or an `HTTPException` with a
status code and a detail message. -/
inductive HandlerResult (α : Type) where
  | ok : α → HandlerResult α
  | httpError : Nat → String → HandlerResult α
deriving Repr, DecidableEq

/-- `get_documents("todo", {}, limit=100)` — Modelled from the spec:
the `database` module is not in the provided sources; per the spec it
"retrieves up to 100 matching documents in store-native order", raising
a driver exception when the store fails. -/
def get_documents (db : StoreDB) (limit : Nat) : Except String (List Doc) :=
  match db.fail with
  | some e => .error e
  | none => .ok (db.docs.take limit)

/-- Serialization of a list of documents, failing on the first document
that `serialize_todo` rejects (as the list comprehension in
`list_todos` does). -/
def serializeAll : List Doc → Except String (List TodoOut)
  | [] => .ok []
  | d :: rest =>
    match serialize_todo d with
    | .error e => .error e
    | .ok o =>
      match serializeAll rest with
      | .error e => .error e
      | .ok os => .ok (o :: os)

/-- `list_todos()`: fetches up to 100 documents and serializes them;
any exception (driver or serialization) becomes a 500 whose detail is
the exception message. -/
def list_todos (db : StoreDB) : HandlerResult (List TodoOut) :=
  match get_documents db 100 with
  | .error e => .httpError 500 e
  | .ok docs =>
    match serializeAll docs with
    | .error e => .httpError 500 e
    | .ok outs => .ok outs

/-- The document inserted for a validated payload — Modelled from the
spec: `create_document` (from the missing `database` module) "inserts
one new document with exactly the supplied fields", the store assigning
the new identifier. -/
def docOfTodoIn (p : TodoIn) (newId : String) : Doc :=
  { oid := newId, title := some p.title, description := p.description,
    completed := some p.completed, priority := p.priority,
    updated_at := none }

/-- `create_document("todo", payload)` — Modelled from the spec: inserts
the document and returns the new identifier, raising a driver exception
when the store fails. -/
def create_document (db : StoreDB) (p : TodoIn) (newId : String) :
    Except String (String × StoreDB) :=
  match db.fail with
  | some e => .error e
  | none => .ok (newId, { db with docs := db.docs ++ [docOfTodoIn p newId] })

/-- `create_todo(payload)`: inserts the document, re-reads it by the new
identifier, and serializes it; any exception becomes a 500 carrying the
exception message. -/
def create_todo (db : StoreDB) (p : TodoIn) (newId : String) :
    HandlerResult TodoOut × StoreDB :=
  match create_document db p newId with
  | .error e => (.httpError 500 e, db)
  | .ok (iid, db2) =>
    match findTodo db2.docs iid with
    | none => (.httpError 500 "NoneType object has no attribute get", db2)
    | some doc =>
      match serialize_todo doc with
      | .error e => (.httpError 500 e, db2)
      | .ok out => (.ok out, db2)

/-- `update_todo(todo_id, payload)`: rejects a malformed identifier with
400 before any store call; otherwise builds the non-null update set plus
the server timestamp, runs the find-and-update, returns 404 when no
document matched, and serializes the post-update document.  Driver and
serialization exceptions become 500 with the exception message; the 404
`HTTPException` is re-raised unchanged. -/
def update_todo (db : StoreDB) (todo_id : String) (payload : TodoIn)
    (now : Nat) : HandlerResult TodoOut × StoreDB :=
  if isValidObjectId todo_id then
    match db.fail with
    | some e => (.httpError 500 e, db)
    | none =>
      let u := buildUpdate payload now
      let r := findOneAndUpdate db.docs todo_id u
      match r.1 with
      | none => (.httpError 404 "Not found", { db with docs := r.2 })
      | some doc =>
        match serialize_todo doc with
        | .error e => (.httpError 500 e, { db with docs := r.2 })
        | .ok out => (.ok out, { db with docs := r.2 })
  else
    (.httpError 400 "Invalid ID", db)

/-- `delete_todo(todo_id)`: rejects a malformed identifier with 400
before any store call; otherwise deletes at most one document, returning
404 when the deleted count is zero and `{ok: true}` on success. -/
def delete_todo (db : StoreDB) (todo_id : String) :
    HandlerResult Bool × StoreDB :=
  if isValidObjectId todo_id then
    match db.fail with
    | some e => (.httpError 500 e, db)
    | none =>
      let r := deleteOne db.docs todo_id
      if r.1 == 0 then (.httpError 404 "Not found", { db with docs := r.2 })
      else (.ok true, { db with docs := r.2 })
  else
    (.httpError 400 "Invalid ID", db)

/-- The create endpoint as seen by a client: FastAPI runs pydantic
validation before the handler, surfacing invalid bodies as 422 without
touching the store. -/
def create_endpoint (db : StoreDB) (raw : RawTodoIn) (newId : String) :
    HandlerResult TodoOut × StoreDB :=
  match validateTodoIn raw with
  | none => (.httpError 422 "Unprocessable Entity", db)
  | some p => create_todo db p newId

/-- The update endpoint as seen by a client: pydantic validation of the
body precedes the handler. -/
def update_endpoint (db : StoreDB) (todo_id : String) (raw : RawTodoIn)
    (now : Nat) : HandlerResult TodoOut × StoreDB :=
  match validateTodoIn raw with
  | none => (.httpError 422 "Unprocessable Entity", db)
  | some p => update_todo db todo_id p now

/-- The store handle as observed by the diagnostic probe: its `name`
attribute when present, and the outcome of `list_collection_names()`
(a list, or a raised exception message). -/
structure DBHandle where
  name : Option String
  listCollections : Except String (List String)
deriving Repr

/-- Environment and store state observed by `test_database`. -/
structure ProbeState where
  db : Option DBHandle
  database_url : Option String
  database_name : Option String
deriving Repr

/-- The diagnostic report returned by `test_database`.  The two
configuration fields start as `None` in the code and are overwritten
with strings before returning, hence `Option String` here. -/
structure ProbeResponse where
  backend : String
  database : String
  database_url : Option String
  database_name : Option String
  connection_status : String
  collections : List String
deriving Repr, DecidableEq

/-- Python truthiness of `os.getenv(var)`: true exactly when the
variable is set to a non-empty string. -/
def envTruthy : Option String → Bool
  | none => false
  | some s => !s.isEmpty

/-- `test_database()`: builds the default report, upgrades it according
to the store handle and collection-name enumeration (capping the listed
collections at 10 and converting every exception into a descriptive
status string), then overwrites the two configuration fields with
set/not-set markers derived from `DATABASE_URL` and `DATABASE_NAME`. -/
def test_database (s : ProbeState) : ProbeResponse :=
  let response : ProbeResponse :=
    { backend := "✅ Running",
      database := "❌ Not Available",
      database_url := none,
      database_name := none,
      connection_status := "Not Connected",
      collections := [] }
  let response :=
    match s.db with
    | some h =>
      let r1 := { response with
                  database := "✅ Available",
                  database_url := some "✅ Configured",
                  database_name := some (h.name.getD "✅ Connected"),
                  connection_status := "Connected" }
      match h.listCollections with
      | .ok cols =>
        { r1 with collections := cols.take 10,
                  database := "✅ Connected & Working" }
      | .error e =>
        { r1 with database := "⚠️  Connected but Error: " ++ e.take 50 }
    | none =>
      { response with database := "⚠️  Available but not initialized" }
  { response with
    database_url :=
      some (if envTruthy s.database_url then "✅ Set" else "❌ Not Set"),
    database_name :=
      some (if envTruthy s.database_name then "✅ Set" else "❌ Not Set") }

/-! ### Store-operation lemmas -/

theorem applySet_oid (u : UpdateSet) (d : Doc) : (applySet u d).oid = d.oid := rfl

theorem findOneAndUpdate_of_found (docs : List Doc) (oid : String)
    (u : UpdateSet) (d : Doc) (h : findTodo docs oid = some d) :
    (findOneAndUpdate docs oid u).1 = some (applySet u d) ∧
    findTodo (findOneAndUpdate docs oid u).2 oid = some (applySet u d) := by
  induction docs with
  | nil => simp [findTodo] at h
  | cons hd tl ih =>
    by_cases hc : (hd.oid == oid) = true
    · simp only [findTodo, List.find?, hc, Option.some.injEq] at h
      subst h
      refine ⟨by simp [findOneAndUpdate, hc], ?_⟩
      simp only [findOneAndUpdate, hc, if_true]
      simp [findTodo, List.find?, applySet_oid, hc]
    · have hc2 : (hd.oid == oid) = false := by simpa using hc
      simp only [findTodo, List.find?, hc2] at h
      have ih2 := ih h
      refine ⟨?_, ?_⟩
      · simpa [findOneAndUpdate, hc2] using ih2.1
      · simp only [findOneAndUpdate, hc2, Bool.false_eq_true, if_false]
        simpa [findTodo, List.find?, hc2] using ih2.2

theorem findOneAndUpdate_of_none (docs : List Doc) (oid : String)
    (u : UpdateSet) (h : findTodo docs oid = none) :
    findOneAndUpdate docs oid u = (none, docs) := by
  induction docs with
  | nil => rfl
  | cons hd tl ih =>
    by_cases hc : (hd.oid == oid) = true
    · simp only [findTodo, List.find?, hc] at h
      cases h
    · have hc2 : (hd.oid == oid) = false := by simpa using hc
      simp only [findTodo, List.find?, hc2] at h
      simp [findOneAndUpdate, hc2, ih h]

theorem deleteOne_of_none (docs : List Doc) (oid : String)
    (h : findTodo docs oid = none) :
    deleteOne docs oid = (0, docs) := by
  induction docs with
  | nil => rfl
  | cons hd tl ih =>
    by_cases hc : (hd.oid == oid) = true
    · simp only [findTodo, List.find?, hc] at h
      cases h
    · have hc2 : (hd.oid == oid) = false := by simpa using hc
      simp only [findTodo, List.find?, hc2] at h
      simp [deleteOne, hc2, ih h]

theorem serialize_applySet (p : TodoIn) (now : Nat) (d : Doc)
    (htitle : titleOk p.title = true)
    (hdesc : descOk (p.description.or d.description) = true) :
    serialize_todo (applySet (buildUpdate p now) d) =
      .ok { id := d.oid, title := p.title,
            description := p.description.or d.description,
            completed := p.completed,
            priority := p.priority.or d.priority } := by
  obtain ⟨t, pd, c, pp⟩ := p
  dsimp only at htitle hdesc
  cases pd <;> cases pp <;>
    simp [serialize_todo, applySet, buildUpdate, Option.or, htitle, hdesc] <;>
    simp [Option.or] at hdesc <;> simp [hdesc]

theorem update_todo_snd (db : StoreDB) (oid : String) (p : TodoIn) (now : Nat)
    (hv : isValidObjectId oid = true) (hfail : db.fail = none) :
    (update_todo db oid p now).2 =
      { db with docs := (findOneAndUpdate db.docs oid (buildUpdate p now)).2 } := by
  simp only [update_todo, hv, if_true, hfail]
  rcases h1 : (findOneAndUpdate db.docs oid (buildUpdate p now)).1 with _ | doc
  · simp [h1]
  · rcases h2 : serialize_todo doc with e | out <;> simp [h1, h2]

theorem serialize_error_msg (d : Doc) (e : String)
    (h : serialize_todo d = .error e) : e = "validation error for TodoOut" := by
  by_cases hc : (titleOk (d.title.getD "") && descOk d.description) = true
  · simp [serialize_todo, hc] at h
  · simp [serialize_todo, hc] at h
    exact h.symm

theorem serializeAll_error_of_mem (docs : List Doc) (d : Doc)
    (hmem : d ∈ docs)
    (he : serialize_todo d = .error "validation error for TodoOut") :
    serializeAll docs = .error "validation error for TodoOut" := by
  induction docs with
  | nil => cases hmem
  | cons hd tl ih =>
    rcases List.mem_cons.mp hmem with rfl | hmem2
    · simp [serializeAll, he]
    · rcases hs : serialize_todo hd with e | o
      · rw [serialize_error_msg hd e hs] at hs
        simp [serializeAll, hs]
      · simp [serializeAll, hs, ih hmem2]

/-! ### Claim theorems -/

/-- Claim C3: for every identifier string that is a well-formed store key
but matches no stored document, `update_todo` and `delete_todo` both
return a 404 not-found error, never a server error (and the store is
left unchanged). -/
theorem update_delete_not_found (db : StoreDB) (oid : String) (p : TodoIn)
    (now : Nat) (hv : isValidObjectId oid = true) (hfail : db.fail = none)
    (hnone : findTodo db.docs oid = none) :
    update_todo db oid p now = (.httpError 404 "Not found", db) ∧
    delete_todo db oid = (.httpError 404 "Not found", db) := by
  have h1 := findOneAndUpdate_of_none db.docs oid (buildUpdate p now) hnone
  have h2 := deleteOne_of_none db.docs oid hnone
  constructor
  · simp [update_todo, hv, hfail, h1]
    rw [← hfail]
  · simp [delete_todo, hv, hfail, h2]
    rw [← hfail]

/-- Witness for C3 at a concrete valid-but-absent identifier over an
empty store. -/
theorem update_delete_not_found_witness :
    update_todo ⟨[], none⟩ "0123456789abcdef01234567"
        ⟨"Buy milk", none, false, none⟩ 0
      = (.httpError 404 "Not found", ⟨[], none⟩) ∧
    delete_todo ⟨[], none⟩ "0123456789abcdef01234567"
      = (.httpError 404 "Not found", ⟨[], none⟩) :=
  update_delete_not_found ⟨[], none⟩ "0123456789abcdef01234567"
    ⟨"Buy milk", none, false, none⟩ 0 (by decide) rfl rfl

/-- Claim C4: for every malformed identifier string, `update_todo` and
`delete_todo` return a 400 client error and the store state is
unchanged (the 400 is raised before any store call). -/
theorem update_delete_bad_id (db : StoreDB) (oid : String) (p : TodoIn)
    (now : Nat) (hv : isValidObjectId oid = false) :
    update_todo db oid p now = (.httpError 400 "Invalid ID", db) ∧
    delete_todo db oid = (.httpError 400 "Invalid ID", db) := by
  constructor <;> simp [update_todo, delete_todo, hv]

/-- Witness for C4 at the concrete malformed identifier "nope". -/
theorem update_delete_bad_id_witness :
    update_todo ⟨[], none⟩ "nope" ⟨"Buy milk", none, false, none⟩ 0
      = (.httpError 400 "Invalid ID", ⟨[], none⟩) ∧
    delete_todo ⟨[], none⟩ "nope" = (.httpError 400 "Invalid ID", ⟨[], none⟩) :=
  update_delete_bad_id ⟨[], none⟩ "nope" ⟨"Buy milk", none, false, none⟩ 0
    (by decide)

/-- Claim C8: when the store raises a driver-level exception with
message `e`, `list_todos`, `create_todo`, `update_todo` and
`delete_todo` all surface a 500 server error whose detail is exactly
`e`, with no retry and no store mutation. -/
theorem store_error_becomes_500 (db : StoreDB) (e : String) (p : TodoIn)
    (oid newId : String) (now : Nat)
    (hfail : db.fail = some e) (hv : isValidObjectId oid = true) :
    list_todos db = .httpError 500 e ∧
    create_todo db p newId = (.httpError 500 e, db) ∧
    update_todo db oid p now = (.httpError 500 e, db) ∧
    delete_todo db oid = (.httpError 500 e, db) := by
  refine ⟨?_, ?_, ?_, ?_⟩ <;>
    simp [list_todos, get_documents, create_todo, create_document,
      update_todo, delete_todo, hv, hfail]

/-- Witness for C8 with a concrete failing store and message "boom". -/
theorem store_error_becomes_500_witness :
    list_todos ⟨[], some "boom"⟩ = .httpError 500 "boom" ∧
    create_todo ⟨[], some "boom"⟩ ⟨"Buy milk", none, false, none⟩ "x"
      = (.httpError 500 "boom", ⟨[], some "boom"⟩) ∧
    update_todo ⟨[], some "boom"⟩ "0123456789abcdef01234567"
        ⟨"Buy milk", none, false, none⟩ 0
      = (.httpError 500 "boom", ⟨[], some "boom"⟩) ∧
    delete_todo ⟨[], some "boom"⟩ "0123456789abcdef01234567"
      = (.httpError 500 "boom", ⟨[], some "boom"⟩) :=
  store_error_becomes_500 ⟨[], some "boom"⟩ "boom"
    ⟨"Buy milk", none, false, none⟩ "0123456789abcdef01234567" "x" 0
    rfl (by decide)

/-- Claim C1: updating a stored todo whose `completed` is true with a
payload whose `completed` is explicitly false writes `completed = false`
to the store and returns a document with `completed = false`: the merge
filter drops `None` but keeps `False`.  The payload is
framework-validated (`titleOk`), and the merged description is within
serialization bounds so the handler returns a document at all. -/
theorem update_explicit_false_sets_false (db : StoreDB) (oid : String)
    (p : TodoIn) (now : Nat) (d : Doc)
    (hv : isValidObjectId oid = true) (hfail : db.fail = none)
    (hfound : findTodo db.docs oid = some d)
    (htitle : titleOk p.title = true)
    (hdesc : descOk (p.description.or d.description) = true)
    (_hprev : d.completed = some true)
    (hcomp : p.completed = false) :
    (applySet (buildUpdate p now) d).completed = some false ∧
    findTodo (update_todo db oid p now).2.docs oid
      = some (applySet (buildUpdate p now) d) ∧
    ∃ out, (update_todo db oid p now).1 = .ok out ∧ out.completed = false := by
  have hfu := findOneAndUpdate_of_found db.docs oid (buildUpdate p now) d hfound
  have hser := serialize_applySet p now d htitle hdesc
  have hsnd := update_todo_snd db oid p now hv hfail
  refine ⟨by simp [applySet, buildUpdate, hcomp], ?_, ?_⟩
  · rw [hsnd]
    exact hfu.2
  · refine ⟨⟨d.oid, p.title, p.description.or d.description, p.completed,
      p.priority.or d.priority⟩, ?_, hcomp⟩
    simp only [update_todo, hv, if_true, hfail, hfu.1, hser]

/-- Witness for C1: a one-document store with `completed = true`,
patched with an explicit `completed = false` payload. -/
theorem update_explicit_false_sets_false_witness :
    (applySet
        (buildUpdate ⟨"Buy milk", none, false, none⟩ 7)
        ⟨"0123456789abcdef01234567", some "Buy milk", none, some true,
          none, none⟩).completed = some false ∧
    findTodo (update_todo
        ⟨[⟨"0123456789abcdef01234567", some "Buy milk", none, some true,
            none, none⟩], none⟩
        "0123456789abcdef01234567" ⟨"Buy milk", none, false, none⟩ 7).2.docs
        "0123456789abcdef01234567"
      = some (applySet (buildUpdate ⟨"Buy milk", none, false, none⟩ 7)
          ⟨"0123456789abcdef01234567", some "Buy milk", none, some true,
            none, none⟩) ∧
    ∃ out,
      (update_todo
          ⟨[⟨"0123456789abcdef01234567", some "Buy milk", none, some true,
              none, none⟩], none⟩
          "0123456789abcdef01234567" ⟨"Buy milk", none, false, none⟩ 7).1
        = .ok out ∧ out.completed = false :=
  update_explicit_false_sets_false
    ⟨[⟨"0123456789abcdef01234567", some "Buy milk", none, some true,
        none, none⟩], none⟩
    "0123456789abcdef01234567" ⟨"Buy milk", none, false, none⟩ 7
    ⟨"0123456789abcdef01234567", some "Buy milk", none, some true,
      none, none⟩
    (by decide) rfl (by decide) (by decide) rfl rfl rfl

/-- Claim C2 counterexample: the claim says every omitted field is left
untouched by the update, but a body that omits `completed` dumps it as
its default `False`, which survives the non-`None` filter and is
written: a stored `completed = some true` becomes `some false`. -/
theorem update_omitted_completed_is_written :
    (⟨some "Buy milk", none, none, none⟩ : RawTodoIn).completed = none ∧
    (update_endpoint
        ⟨[⟨"0123456789abcdef01234567", some "Buy milk", none, some true,
            none, none⟩], none⟩
        "0123456789abcdef01234567" ⟨some "Buy milk", none, none, none⟩
        7).2.docs.map Doc.completed = [some false] := by
  constructor
  · rfl
  · decide

/-- Claim C2 as amended: omitted/null `description` and `priority`
(the `Optional` fields, dumped as `None`) are dropped from the merge and
left untouched in the store; but `title` is required and always written,
and `completed`, when omitted, is dumped as its default `False` and is
written rather than left untouched. -/
theorem update_merge_optional_fields (db : StoreDB) (oid : String)
    (p : TodoIn) (now : Nat) (d : Doc)
    (hv : isValidObjectId oid = true) (hfail : db.fail = none)
    (hfound : findTodo db.docs oid = some d)
    (hd : p.description = none) (hp : p.priority = none) :
    (applySet (buildUpdate p now) d).description = d.description ∧
    (applySet (buildUpdate p now) d).priority = d.priority ∧
    (applySet (buildUpdate p now) d).title = some p.title ∧
    (applySet (buildUpdate p now) d).completed = some p.completed ∧
    findTodo (update_todo db oid p now).2.docs oid
      = some (applySet (buildUpdate p now) d) := by
  have hfu := findOneAndUpdate_of_found db.docs oid (buildUpdate p now) d hfound
  have hsnd := update_todo_snd db oid p now hv hfail
  refine ⟨by simp [applySet, buildUpdate, hd], by simp [applySet, buildUpdate, hp],
    rfl, rfl, ?_⟩
  rw [hsnd]
  exact hfu.2

/-- Witness for the amended C2: a payload with `description` and
`priority` omitted leaves the stored document's description and priority
untouched. -/
theorem update_merge_optional_fields_witness :
    (applySet (buildUpdate ⟨"New", none, true, none⟩ 7)
        ⟨"0123456789abcdef01234567", some "Old", some "keep me",
          some false, some "high", none⟩).description = some "keep me" ∧
    (applySet (buildUpdate ⟨"New", none, true, none⟩ 7)
        ⟨"0123456789abcdef01234567", some "Old", some "keep me",
          some false, some "high", none⟩).priority = some "high" ∧
    (applySet (buildUpdate ⟨"New", none, true, none⟩ 7)
        ⟨"0123456789abcdef01234567", some "Old", some "keep me",
          some false, some "high", none⟩).title = some "New" ∧
    (applySet (buildUpdate ⟨"New", none, true, none⟩ 7)
        ⟨"0123456789abcdef01234567", some "Old", some "keep me",
          some false, some "high", none⟩).completed = some true ∧
    findTodo (update_todo
        ⟨[⟨"0123456789abcdef01234567", some "Old", some "keep me",
            some false, some "high", none⟩], none⟩
        "0123456789abcdef01234567" ⟨"New", none, true, none⟩ 7).2.docs
        "0123456789abcdef01234567"
      = some (applySet (buildUpdate ⟨"New", none, true, none⟩ 7)
          ⟨"0123456789abcdef01234567", some "Old", some "keep me",
            some false, some "high", none⟩) :=
  update_merge_optional_fields
    ⟨[⟨"0123456789abcdef01234567", some "Old", some "keep me",
        some false, some "high", none⟩], none⟩
    "0123456789abcdef01234567" ⟨"New", none, true, none⟩ 7
    ⟨"0123456789abcdef01234567", some "Old", some "keep me",
      some false, some "high", none⟩
    (by decide) rfl (by decide) rfl rfl

/-- Claim C6: every successful `update_todo` writes the server-assigned
`updated_at` timestamp as part of the update set, and the returned body
is the serialization of the post-update stored document (the
find-and-update returns the document after the merge was applied). -/
theorem update_writes_timestamp_returns_post (db : StoreDB) (oid : String)
    (p : TodoIn) (now : Nat) (d : Doc)
    (hv : isValidObjectId oid = true) (hfail : db.fail = none)
    (hfound : findTodo db.docs oid = some d)
    (htitle : titleOk p.title = true)
    (hdesc : descOk (p.description.or d.description) = true) :
    (buildUpdate p now).updated_at = now ∧
    (applySet (buildUpdate p now) d).updated_at = some now ∧
    findTodo (update_todo db oid p now).2.docs oid
      = some (applySet (buildUpdate p now) d) ∧
    ∃ out, (update_todo db oid p now).1 = .ok out ∧
      serialize_todo (applySet (buildUpdate p now) d) = .ok out := by
  have hfu := findOneAndUpdate_of_found db.docs oid (buildUpdate p now) d hfound
  have hser := serialize_applySet p now d htitle hdesc
  have hsnd := update_todo_snd db oid p now hv hfail
  refine ⟨rfl, rfl, ?_, ?_⟩
  · rw [hsnd]
    exact hfu.2
  · refine ⟨_, ?_, hser⟩
    simp only [update_todo, hv, if_true, hfail, hfu.1, hser]

/-- Witness for C6: updating a concrete one-document store stamps
`updated_at = 7` and returns the serialized post-update document. -/
theorem update_writes_timestamp_returns_post_witness :
    (buildUpdate ⟨"Buy milk", none, true, none⟩ 7).updated_at = 7 ∧
    (applySet (buildUpdate ⟨"Buy milk", none, true, none⟩ 7)
        ⟨"0123456789abcdef01234567", some "Old", none, some false,
          none, none⟩).updated_at = some 7 ∧
    findTodo (update_todo
        ⟨[⟨"0123456789abcdef01234567", some "Old", none, some false,
            none, none⟩], none⟩
        "0123456789abcdef01234567" ⟨"Buy milk", none, true, none⟩ 7).2.docs
        "0123456789abcdef01234567"
      = some (applySet (buildUpdate ⟨"Buy milk", none, true, none⟩ 7)
          ⟨"0123456789abcdef01234567", some "Old", none, some false,
            none, none⟩) ∧
    ∃ out,
      (update_todo
          ⟨[⟨"0123456789abcdef01234567", some "Old", none, some false,
              none, none⟩], none⟩
          "0123456789abcdef01234567" ⟨"Buy milk", none, true, none⟩ 7).1
        = .ok out ∧
      serialize_todo (applySet (buildUpdate ⟨"Buy milk", none, true, none⟩ 7)
          ⟨"0123456789abcdef01234567", some "Old", none, some false,
            none, none⟩) = .ok out :=
  update_writes_timestamp_returns_post
    ⟨[⟨"0123456789abcdef01234567", some "Old", none, some false,
        none, none⟩], none⟩
    "0123456789abcdef01234567" ⟨"Buy milk", none, true, none⟩ 7
    ⟨"0123456789abcdef01234567", some "Old", none, some false, none, none⟩
    (by decide) rfl (by decide) (by decide) rfl

/-- Claim C5: pydantic validation of the create payload enforces the
documented bounds before any store effect: a title of length 0 is
rejected, length exactly 200 is accepted, length 201 is rejected, a
description longer than 1000 characters is rejected; `completed`
defaults to false and `priority` is unconstrained optional text; a body
that fails validation yields a 422 from the create endpoint with the
store untouched. -/
theorem create_validation_bounds (t : String) (dsc pr : Option String)
    (c : Option Bool) :
    (t.length = 0 → validateTodoIn ⟨some t, dsc, c, pr⟩ = none) ∧
    (t.length = 201 → validateTodoIn ⟨some t, dsc, c, pr⟩ = none) ∧
    (∀ dd, dsc = some dd → 1000 < dd.length →
      validateTodoIn ⟨some t, dsc, c, pr⟩ = none) ∧
    (t.length = 200 → descOk dsc = true →
      validateTodoIn ⟨some t, dsc, c, pr⟩ = some ⟨t, dsc, c.getD false, pr⟩) ∧
    (validateTodoIn ⟨none, dsc, c, pr⟩ = none) ∧
    (∀ db newId, validateTodoIn ⟨some t, dsc, c, pr⟩ = none →
      create_endpoint db ⟨some t, dsc, c, pr⟩ newId
        = (.httpError 422 "Unprocessable Entity", db)) := by
  refine ⟨?_, ?_, ?_, ?_, rfl, ?_⟩
  · intro h
    simp [validateTodoIn, titleOk, h]
  · intro h
    simp [validateTodoIn, titleOk, h]
  · intro dd hdd hlen
    subst hdd
    have hfalse : descOk (some dd) = false := by
      simp [descOk]
      omega
    simp [validateTodoIn, hfalse]
  · intro ht hdesc
    simp [validateTodoIn, titleOk, ht, hdesc]
  · intro db newId hnone
    simp [create_endpoint, hnone]

/-- Witness for C5: a 200-character title is accepted (with `completed`
defaulting to false) and the empty title is rejected. -/
theorem create_validation_bounds_witness :
    validateTodoIn
        ⟨some (String.mk (List.replicate 200 (Char.ofNat 97))), none, none, none⟩
      = some ⟨String.mk (List.replicate 200 (Char.ofNat 97)), none, false, none⟩ ∧
    validateTodoIn ⟨some "", none, none, none⟩ = none :=
  ⟨(create_validation_bounds (String.mk (List.replicate 200 (Char.ofNat 97)))
      none none none).2.2.2.1
      (by
        rw [show (String.mk (List.replicate 200 (Char.ofNat 97))).length
              = (List.replicate 200 (Char.ofNat 97)).length from rfl]
        rw [List.length_replicate]) rfl,
   (create_validation_bounds "" none none none).1 rfl⟩

/-- Claim C7: `test_database` is a total function of the observed
store/environment state, so it never raises: a missing store handle and
a failing collection enumeration are both encoded as descriptive status
strings in the returned report, and the collections field holds at most
10 names. -/
theorem probe_never_raises (s : ProbeState) :
    (test_database s).collections.length ≤ 10 ∧
    (test_database s).backend = "✅ Running" ∧
    (s.db = none →
      (test_database s).database = "⚠️  Available but not initialized") ∧
    (∀ h e, s.db = some h → h.listCollections = .error e →
      (test_database s).database = "⚠️  Connected but Error: " ++ e.take 50) ∧
    (∀ h cols, s.db = some h → h.listCollections = .ok cols →
      (test_database s).database = "✅ Connected & Working" ∧
      (test_database s).collections = cols.take 10) := by
  rcases s with ⟨dbh, url, nm⟩
  rcases dbh with _ | hdb
  · refine ⟨by simp [test_database], rfl, fun _ => rfl, ?_, ?_⟩
    · intro h e hs _
      simp at hs
    · intro h cols hs _
      simp at hs
  · rcases hlc : hdb.listCollections with e | cols
    · refine ⟨by simp [test_database, hlc], by simp [test_database, hlc], ?_, ?_, ?_⟩
      · intro hs
        simp at hs
      · intro h2 e2 hs hl2
        injection hs with hs
        subst hs
        rw [hlc] at hl2
        injection hl2 with hl2
        subst hl2
        simp [test_database, hlc]
      · intro h2 cols2 hs hl2
        injection hs with hs
        subst hs
        rw [hlc] at hl2
        cases hl2
    · refine ⟨?_, by simp [test_database, hlc], ?_, ?_, ?_⟩
      · simp [test_database, hlc, List.length_take]
      · intro hs
        simp at hs
      · intro h2 e2 hs hl2
        injection hs with hs
        subst hs
        rw [hlc] at hl2
        cases hl2
      · intro h2 cols2 hs hl2
        injection hs with hs
        subst hs
        rw [hlc] at hl2
        injection hl2 with hl2
        subst hl2
        constructor
        · simp [test_database, hlc]
        · simp [test_database, hlc]

/-- Witness for C7: a handle whose collection enumeration raises "down"
is reported as a descriptive status string, not an exception. -/
theorem probe_never_raises_witness :
    (test_database ⟨some ⟨some "mydb", .error "down"⟩, none, some "n"⟩).database
      = "⚠️  Connected but Error: " ++ "down".take 50 :=
  (probe_never_raises
    ⟨some ⟨some "mydb", .error "down"⟩, none, some "n"⟩).2.2.2.1
    ⟨some "mydb", .error "down"⟩ "down" rfl rfl

theorem test_database_url_eq (s : ProbeState) :
    (test_database s).database_url =
      some (if envTruthy s.database_url then "✅ Set" else "❌ Not Set") := by
  rcases s with ⟨dbh, url, nm⟩
  rcases dbh with _ | h
  · rfl
  · rcases hlc : h.listCollections with e | cols <;>
      simp [test_database, hlc]

theorem test_database_name_eq (s : ProbeState) :
    (test_database s).database_name =
      some (if envTruthy s.database_name then "✅ Set" else "❌ Not Set") := by
  rcases s with ⟨dbh, url, nm⟩
  rcases dbh with _ | h
  · rfl
  · rcases hlc : h.listCollections with e | cols <;>
      simp [test_database, hlc]

/-- Claim C9 counterexample: the claim says the two configuration fields
depend only on whether the environment values are set, never on their
contents; but Python truthiness makes a variable set to the empty string
read as unset, so two runs that both have `DATABASE_URL` set — one to
`""`, one to a non-empty string — disagree on the `database_url`
field. -/
theorem probe_env_depends_on_value :
    (test_database ⟨none, some "", none⟩).database_url = some "❌ Not Set" ∧
    (test_database ⟨none, some "mongodb://h", none⟩).database_url
      = some "✅ Set" ∧
    (test_database ⟨none, some "", none⟩).database_url ≠
      (test_database ⟨none, some "mongodb://h", none⟩).database_url := by
  refine ⟨rfl, rfl, ?_⟩
  decide

/-- Claim C9 as amended: the two configuration fields depend only on the
Python truthiness of the environment values — set to a non-empty string
versus unset-or-empty.  Two states agreeing on that truthiness for both
variables produce identical `database_url` and `database_name`
fields. -/
theorem probe_env_presence_only (s1 s2 : ProbeState)
    (hu : envTruthy s1.database_url = envTruthy s2.database_url)
    (hn : envTruthy s1.database_name = envTruthy s2.database_name) :
    (test_database s1).database_url = (test_database s2).database_url ∧
    (test_database s1).database_name = (test_database s2).database_name := by
  constructor
  · rw [test_database_url_eq, test_database_url_eq, hu]
  · rw [test_database_name_eq, test_database_name_eq, hn]

/-- Witness for the amended C9: two states with different non-empty
`DATABASE_URL` values (and different store handles) report identical
configuration fields. -/
theorem probe_env_presence_only_witness :
    (test_database ⟨none, some "mongodb://a", some "x"⟩).database_url
      = (test_database ⟨some ⟨none, .ok []⟩, some "mongodb://b", some "y"⟩).database_url ∧
    (test_database ⟨none, some "mongodb://a", some "x"⟩).database_name
      = (test_database ⟨some ⟨none, .ok []⟩, some "mongodb://b", some "y"⟩).database_name :=
  probe_env_presence_only ⟨none, some "mongodb://a", some "x"⟩
    ⟨some ⟨none, .ok []⟩, some "mongodb://b", some "y"⟩ rfl rfl

/-- Claim C10: `serialize_todo` is total exactly on documents within the
API bounds: a present non-empty title of at most 200 characters and an
in-bounds description serialize successfully, with `id` the document's
key and `completed` defaulting to false when absent; an absent or empty
title makes the `TodoOut` construction fail validation, and every
handler that serializes such a document surfaces a 500 server error:
`list_todos` when the document is among the fetched ones, `create_todo`
when the `find_one` read-back after the insert yields it, and
`update_todo` when the post-update document fails serialization. -/
theorem serialize_totality_bounds (doc : Doc) :
    (∀ t, doc.title = some t → t ≠ "" → t.length ≤ 200 →
      descOk doc.description = true →
      serialize_todo doc = .ok ⟨doc.oid, t, doc.description,
        doc.completed.getD false, doc.priority⟩) ∧
    ((doc.title = none ∨ doc.title = some "") →
      serialize_todo doc = .error "validation error for TodoOut") ∧
    (∀ db, db.fail = none → db.docs.length ≤ 100 → doc ∈ db.docs →
      (doc.title = none ∨ doc.title = some "") →
      list_todos db = .httpError 500 "validation error for TodoOut") ∧
    (∀ db p newId e, db.fail = none →
      findTodo (db.docs ++ [docOfTodoIn p newId]) newId = some doc →
      serialize_todo doc = .error e →
      (create_todo db p newId).1 = .httpError 500 e) ∧
    (∀ db oid p now e, isValidObjectId oid = true → db.fail = none →
      (findOneAndUpdate db.docs oid (buildUpdate p now)).1 = some doc →
      serialize_todo doc = .error e →
      (update_todo db oid p now).1 = .httpError 500 e) := by
  have herr : (doc.title = none ∨ doc.title = some "") →
      serialize_todo doc = .error "validation error for TodoOut" := by
    rintro (h | h) <;> simp [serialize_todo, h, titleOk]
  refine ⟨?_, herr, ?_, ?_, ?_⟩
  · intro t ht hne hle hdesc
    have hpos : 0 < t.length := by
      cases t with
      | mk data =>
        cases data with
        | nil => simp at hne
        | cons a l => simp [String.length]
    have htok : titleOk t = true := by
      simp [titleOk]
      exact ⟨hpos, hle⟩
    simp [serialize_todo, ht, htok, hdesc]
  · intro db hfail hlen hmem hbad
    have hall : serializeAll db.docs = .error "validation error for TodoOut" :=
      serializeAll_error_of_mem db.docs doc hmem (herr hbad)
    simp [list_todos, get_documents, hfail, List.take_of_length_le hlen, hall]
  · intro db p newId e hfail hfind hser
    simp only [create_todo, create_document, hfail, hfind, hser]
  · intro db oid p now e hv hfail hfind hser
    simp only [update_todo, hv, if_true, hfail, hfind, hser]

/-- Witness for C10: a well-formed document serializes with `completed`
defaulting to false; a document with an empty title makes `list_todos`
return a 500; and when the read-back after an insert yields that
empty-title document (here because the store already held a document
under the inserted key), `create_todo` returns a 500 as well. -/
theorem serialize_totality_bounds_witness :
    serialize_todo ⟨"0123456789abcdef01234567", some "Buy milk", none,
        none, none, none⟩
      = .ok ⟨"0123456789abcdef01234567", "Buy milk", none, false, none⟩ ∧
    list_todos ⟨[⟨"0123456789abcdef01234567", some "", none, none, none,
        none⟩], none⟩
      = .httpError 500 "validation error for TodoOut" ∧
    (create_todo ⟨[⟨"0123456789abcdef01234567", some "", none, none, none,
        none⟩], none⟩
      ⟨"Buy milk", none, false, none⟩ "0123456789abcdef01234567").1
      = .httpError 500 "validation error for TodoOut" :=
  ⟨(serialize_totality_bounds ⟨"0123456789abcdef01234567", some "Buy milk",
      none, none, none, none⟩).1 "Buy milk" rfl (by decide) (by decide) rfl,
   (serialize_totality_bounds ⟨"0123456789abcdef01234567", some "", none,
      none, none, none⟩).2.2.1
     ⟨[⟨"0123456789abcdef01234567", some "", none, none, none, none⟩], none⟩
     rfl (by decide) (by decide) (.inr rfl),
   (serialize_totality_bounds ⟨"0123456789abcdef01234567", some "", none,
      none, none, none⟩).2.2.2.1
     ⟨[⟨"0123456789abcdef01234567", some "", none, none, none, none⟩], none⟩
     ⟨"Buy milk", none, false, none⟩ "0123456789abcdef01234567"
     "validation error for TodoOut" rfl (by decide) rfl⟩

end TodoApi
